import Mathlib

/-!
Verification of the QuickCapture camera-session core (`quickcapture.py`).

This file gives a shallow embedding of the `CameraThread` dispatcher loop,
its connection/acquisition phase, the `stop` shutdown path, and the
capture / autofocus job bodies defined in `QuickCaptureApp`, and proves
the specification claims about them.

Modelling conventions:
* time is in milliseconds (`Nat`); the Python `time.sleep(x)` becomes a
  `sleep` trace event of `x * 1000` ms;
* a `threading.Event` completion handle is the `OneShot` structure, which
  records its boolean state together with how many `set()` calls were made
  and how many false→true transitions occurred (`set()` on an already-set
  event is a no-op, so a one-shot handle transitions at most once);
* a queued job is abstracted by what its body does when invoked with the
  live handle: it either returns, raises a `gphoto2.GPhoto2Error` with some
  code, or raises some other exception (`JobOutcome`);
* each phase of the loop is a pure function from its inputs to an event
  trace plus result records, translated clause-by-clause from the source.
-/

/-- A value written to a named camera control: either a string choice or
an integer, matching the two kinds of `set_value` arguments in the source. -/
inductive CtrlVal
  | s (v : String)
  | n (v : Int)
deriving DecidableEq, Repr

/-- Model of `threading.Event` used as a completion handle, instrumented
with the number of `set()` invocations and the number of unset→set
transitions. `set()` on an already-set event changes nothing observable. -/
structure OneShot where
  isSet : Bool
  setCalls : Nat
  transitions : Nat
deriving DecidableEq, Repr

/-- A fresh, unsignaled completion handle (`threading.Event()`). -/
def OneShot.new : OneShot := ⟨false, 0, 0⟩

/-- One `done.set()` call. -/
def OneShot.set (e : OneShot) : OneShot :=
  { isSet := true
    setCalls := e.setCalls + 1
    transitions := if e.isSet then e.transitions else e.transitions + 1 }

/-- What a job body does when invoked with the live camera handle:
returns normally, raises `gp.GPhoto2Error` with a code, or raises some
other exception with a message. -/
inductive JobOutcome
  | ok
  | gpErr (code : Int)
  | exc (msg : String)
deriving DecidableEq, Repr

/-- The numeric value of the distinguished disconnect error code
`gp.GP_ERROR_IO` compared against in `CameraThread._loop`. -/
def gpErrorIo : Int := -7

/-- A queued job: an identifier plus the behaviour of its body. -/
structure QJob where
  jid : Nat
  outcome : JobOutcome
deriving DecidableEq, Repr

/-- Observable events of the dispatcher loop, the connect routine and the
queue drains, in program order. -/
inductive LEvent
  | statusEv (msg : String) (persist : Bool)
  | killDaemons
  | sleepEv (ms : Nat)
  | camInit
  | setCtrlEv (name : String) (v : CtrlVal)
  | run (j : QJob)
  | setDone (j : QJob)
  | frameCb
  | previewOp
  | pollOp
  | fileEvCb
  | disconnectCb
  | camExit
deriving DecidableEq, Repr

/-- The fate of one popped job: whether its body was invoked, whether the
body returned normally, and the final state of its completion handle. -/
structure JobRecord where
  job : QJob
  ran : Bool
  completed : Bool
  handle : OneShot
deriving DecidableEq, Repr

/-- Result of the job-drain phase of one `_loop` iteration
(lines 282-294): trace, records for the popped jobs in pop order, jobs
left in the queue, and whether a disconnect-class error broke the drain. -/
structure DrainOut where
  trace : List LEvent
  records : List JobRecord
  remaining : List QJob
  disconnected : Bool
deriving DecidableEq, Repr

namespace CameraThread

/-- One pass of the drain body: `fn, done = q.get(); try: fn(cam) ...`.
Mirrors lines 283-294 of `quickcapture.py`: on success only the `finally`
sets `done`; on `GPhoto2Error` with `GP_ERROR_IO` the `except` branch sets
`done` and breaks, after which the `finally` sets it a second time; on any
other error a status warning is reported and the `finally` sets `done`.
Returns the job record, the disconnect flag, and the trace. -/
def runOne (j : QJob) : JobRecord × Bool × List LEvent :=
  match j.outcome with
  | .ok => (⟨j, true, true, OneShot.new.set⟩, false, [.run j, .setDone j])
  | .gpErr c =>
    if c = gpErrorIo then
      (⟨j, true, false, OneShot.new.set.set⟩, true, [.run j, .setDone j, .setDone j])
    else
      (⟨j, true, false, OneShot.new.set⟩, false,
        [.run j, .statusEv ("warn gphoto2 error " ++ toString c) false, .setDone j])
  | .exc m =>
    (⟨j, true, false, OneShot.new.set⟩, false,
      [.run j, .statusEv ("warn " ++ m) false, .setDone j])

/-- The drain loop `while not self._q.empty(): ...` of `_loop`
(lines 282-294): pops jobs in FIFO order until the queue is empty or a
disconnect-class error stops the drain, leaving the rest queued. -/
def drainJobs : List QJob → DrainOut
  | [] => ⟨[], [], [], false⟩
  | j :: rest =>
    if (runOne j).2.1 then
      ⟨(runOne j).2.2, [(runOne j).1], rest, true⟩
    else
      ⟨(runOne j).2.2 ++ (drainJobs rest).trace,
       (runOne j).1 :: (drainJobs rest).records,
       (drainJobs rest).remaining,
       (drainJobs rest).disconnected⟩

/-- Model of `CameraThread._drain_queue` (lines 235-239): discard every pending job,
setting its completion handle without invoking its body. -/
def drainQueue (q : List QJob) : List LEvent × List JobRecord :=
  (q.map fun j => LEvent.setDone j,
   q.map fun j => ⟨j, false, false, OneShot.new.set⟩)

/-- Behaviour of `cam.capture_preview()` inside one iteration: succeeds,
raises `GPhoto2Error` with `GP_ERROR_IO`, raises `GPhoto2Error` with some
other code, or raises a non-gphoto exception. -/
inductive PrevOut
  | ok
  | ioErr
  | gpOther
  | otherExn
deriving DecidableEq, Repr

/-- Behaviour of the `cam.wait_for_event(10)` poll inside one iteration:
no interesting event, a `GP_EVENT_FILE_ADDED` event, a `GPhoto2Error` with
`GP_ERROR_IO`, or some other exception. -/
inductive PollOut
  | noEvent
  | fileAdded
  | ioErr
  | otherExn
deriving DecidableEq, Repr

/-- The preview step of `_loop` (lines 297-308): on success deliver the
frame; on `GP_ERROR_IO` break out of the iteration (second component
`true`); on another `GPhoto2Error` sleep 0.2 s; on any other exception
sleep 0.1 s. -/
def previewStep : PrevOut → List LEvent × Bool
  | .ok => ([.previewOp, .frameCb], false)
  | .ioErr => ([.previewOp], true)
  | .gpOther => ([.previewOp, .sleepEv 200], false)
  | .otherExn => ([.previewOp, .sleepEv 100], false)

/-- The event-poll step of `_loop` (lines 310-324): a file-added event is
fetched, saved and delivered via the file callback; every exception —
including a disconnect-class `GPhoto2Error` — is swallowed by the bare
`except Exception: pass`. -/
def pollStep : PollOut → List LEvent
  | .noEvent => [.pollOp]
  | .fileAdded => [.pollOp, .fileEvCb]
  | .ioErr => [.pollOp]
  | .otherExn => [.pollOp]

/-- Inputs of one connected-loop iteration: the jobs queued at the top of
the iteration and the behaviour of the preview pull and event poll. -/
structure IterIn where
  queue : List QJob
  prevOut : PrevOut
  pollOut : PollOut
deriving DecidableEq, Repr

/-- What the loop does after the iteration. -/
inductive NextStep
  | continueLoop
  | reconnect
deriving DecidableEq, Repr

/-- Result of one connected-loop iteration including, on the disconnect
path, the cleanup of lines 330-345. -/
structure IterOut where
  trace : List LEvent
  records : List JobRecord
  next : NextStep
deriving DecidableEq, Repr

/-- The cleanup after breaking out of the connected loop while still
running (lines 330-345): `_drain_queue`, clear the camera reference,
notify `on_disconnect`, best-effort `cam.exit()`, sleep 1 s. -/
def reconnectCleanup (rem : List QJob) : List LEvent × List JobRecord :=
  ((drainQueue rem).1 ++ [.disconnectCb, .camExit, .sleepEv 1000],
   (drainQueue rem).2)

/-- The connected-loop exit when `_running` has been cleared (lines
331-338): `_drain_queue`, clean `cam.exit()`, return. -/
def shutdownDrain (q : List QJob) : List LEvent × List JobRecord :=
  ((drainQueue q).1 ++ [.camExit], (drainQueue q).2)

/-- One full iteration of the connected main loop of `_loop`
(lines 280-345) with `_running` still true: drain the queued jobs; if a
disconnect-class error broke the drain, skip the `else` clause and fall
through to the reconnect cleanup; otherwise pull one preview frame (a
disconnect-class error there also breaks to the reconnect cleanup) and
perform one event poll, then continue. -/
def iterFull (inp : IterIn) : IterOut :=
  if (drainJobs inp.queue).disconnected then
    ⟨(drainJobs inp.queue).trace ++ (reconnectCleanup (drainJobs inp.queue).remaining).1,
     (drainJobs inp.queue).records ++ (reconnectCleanup (drainJobs inp.queue).remaining).2,
     .reconnect⟩
  else if (previewStep inp.prevOut).2 then
    ⟨(drainJobs inp.queue).trace ++ (previewStep inp.prevOut).1
       ++ (reconnectCleanup (drainJobs inp.queue).remaining).1,
     (drainJobs inp.queue).records ++ (reconnectCleanup (drainJobs inp.queue).remaining).2,
     .reconnect⟩
  else
    ⟨(drainJobs inp.queue).trace ++ (previewStep inp.prevOut).1 ++ pollStep inp.pollOut,
     (drainJobs inp.queue).records,
     .continueLoop⟩

/-- Where a failing `_connect` attempt (lines 241-264) raises: opening the
handle, writing the first baseline control, or writing the second. -/
inductive ConnStep
  | atInit
  | atTarget
  | atViewfinder
deriving DecidableEq, Repr

/-- The unconditional head of every `_connect` attempt: report the
persistent "Connecting..." status, `killall` the competing device daemons,
and sleep the fixed 1.5 s settle delay. -/
def connectPre : List LEvent :=
  [.statusEv ("Connecting...") true, .killDaemons, .sleepEv 1500]

/-- Model of `CameraThread._connect` (lines 241-264) as a function of where (if
anywhere) it fails: after the settle delay it opens the handle
(`cam.init()`), sets the baseline image-format control `imageformat = "L"`,
then enables the viewfinder (`viewfinder = 1`); on success it reports
"Ready" and returns the handle, on any exception it returns `None`
(first component `false`). -/
def connectAttempt : Option ConnStep → Bool × List LEvent
  | none =>
    (true, connectPre ++
      [.camInit, .setCtrlEv ("imageformat") (CtrlVal.s ("L")),
       .setCtrlEv ("viewfinder") (CtrlVal.n 1), .statusEv ("Ready") false])
  | some .atInit => (false, connectPre)
  | some .atTarget => (false, connectPre ++ [.camInit])
  | some .atViewfinder =>
    (false, connectPre ++ [.camInit, .setCtrlEv ("imageformat") (CtrlVal.s ("L"))])

/-- One round of the acquisition loop of `_loop` (lines 269-274): jobs that
arrive just before the `while self._running and cam is None` check, the
value of `_running` read at that check, and whether/where the `_connect`
attempt fails (`none` = success). -/
structure AcqRound where
  arriving : List QJob
  running : Bool
  connFail : Option ConnStep
deriving DecidableEq, Repr

/-- How the acquisition phase ended: `_running` was cleared and `_loop`
returned at line 277 (`shutdown`), a connect attempt succeeded and control
passed to the connected loop (`connected`), or the supplied schedule ran
out with the loop still retrying (`retrying`). -/
inductive AcqExit
  | shutdown
  | connected
  | retrying
deriving DecidableEq, Repr

/-- Result of running the acquisition phase over a schedule of rounds. -/
structure AcqOut where
  trace : List LEvent
  records : List JobRecord
  pending : List QJob
  attempts : Nat
  exit : AcqExit
deriving DecidableEq, Repr

/-- The acquisition loop of `_loop` (lines 268-277) over a finite schedule:
each round first merges newly arrived jobs into the queue, then checks
`_running` (false ⇒ the loop exits and line 277 returns — note the queue is
*not* drained on this path); otherwise a `_connect` attempt is made; on
success the loop exits to the connected phase with the queue intact; on
failure the queue is drained (every pending handle set, nothing run), the
persistent "No camera -- waiting..." status is reported, and the loop
sleeps the 2 s backoff before retrying. -/
def acqLoop : List AcqRound → List QJob → AcqOut
  | [], q => ⟨[], [], q, 0, .retrying⟩
  | r :: rest, q0 =>
    if r.running = false then
      ⟨[], [], q0 ++ r.arriving, 0, .shutdown⟩
    else if (connectAttempt r.connFail).1 then
      ⟨(connectAttempt r.connFail).2, [], q0 ++ r.arriving, 1, .connected⟩
    else
      ⟨(connectAttempt r.connFail).2
         ++ (drainQueue (q0 ++ r.arriving)).1
         ++ [.statusEv ("No camera -- waiting...") true, .sleepEv 2000]
         ++ (acqLoop rest []).trace,
       (drainQueue (q0 ++ r.arriving)).2 ++ (acqLoop rest []).records,
       (acqLoop rest []).pending,
       (acqLoop rest []).attempts + 1,
       (acqLoop rest []).exit⟩

/-- State read and written by `CameraThread.stop`: the `_running` flag and
the retained `_cam_ref` emergency handle reference. -/
structure CTState where
  running : Bool
  camRef : Option Nat
deriving DecidableEq, Repr

/-- External actions performed by `stop`: a best-effort `cam.exit()` on the
retained handle, and a thread join whose timeout is `some` milliseconds
(a bounded join) or `none` (unbounded — never produced by this code). -/
inductive StopOp
  | exitHandle (h : Nat)
  | joinThread (timeoutMs : Option Nat)
deriving DecidableEq, Repr

/-- Model of `CameraThread.stop` (lines 223-233): clear `_running`; if a live handle
reference is retained, `cam.exit()` it directly from the calling thread
(errors swallowed) and clear the reference; then join the loop thread with
a 2 s timeout. -/
def stop (s : CTState) : CTState × List StopOp :=
  match s.camRef with
  | some h => (⟨false, none⟩, [StopOp.exitHandle h, StopOp.joinThread (some 2000)])
  | none => (⟨false, none⟩, [StopOp.joinThread (some 2000)])

end CameraThread

/-- Operations a job body performs on the live handle (and its callbacks),
in program order. -/
inductive DevOp
  | getConfig
  | setCtrl (name : String) (v : CtrlVal)
  | sleep (ms : Nat)
  | waitEvent (timeoutMs : Nat)
  | fileGet
  | saveFile
  | fileCb
deriving DecidableEq, Repr

/-- Recognizer for the `_on_file` callback among job device operations. -/
def isFileCb : DevOp → Bool
  | .fileCb => true
  | _ => false

namespace QuickCaptureApp

/-- The fixed debounce delay (`time.sleep(0.25)`) after each remote-release
write in `capture_job`, in milliseconds. -/
def debounce : Nat := 250

/-- One arm of the `for val in (...)` loop of `capture_job` (lines
664-669): read the config, write the remote-release control to `val`, and
sleep the debounce delay. -/
def releaseStep (v : String) : List DevOp :=
  [.getConfig, .setCtrl ("eosremoterelease") (CtrlVal.s v), .sleep debounce]

/-- The four-phase remote-release sequence of `capture_job`, in the literal
source order. -/
def releaseSeqOps : List DevOp :=
  releaseStep ("Press Half") ++ releaseStep ("Press Full")
    ++ releaseStep ("Release Full") ++ releaseStep ("Release Half")

/-- The tail of the successful capture path (lines 675-694): fetch the
file, save it (with rotation/EXIF post-processing), deliver the
`_on_file` callback, sleep 0.8 s, re-enable the viewfinder control, and
sleep the final 0.5 s settle delay before returning. -/
def successTail : List DevOp :=
  [.fileGet, .saveFile, .fileCb, .sleep 800,
   .getConfig, .setCtrl ("viewfinder") (CtrlVal.n 1), .sleep 500]

/-- The `while time.time() < deadline` poll loop of `capture_job`
(lines 672-674), discretized at the 300 ms `wait_for_event` granularity:
at clock `t`, if `t < dl` the job polls for 300 ms and receives the
file-added event iff one is pending no later than `t + 300`; otherwise the
clock advances to `t + 300` and the loop re-checks the deadline. The
`fuel` argument is a structural-recursion bound only; every use supplies
at least `dl - t` fuel, which the loop (consuming 300 ms per step) can
never exhaust. -/
def captureWaitAux (fileAt : Option Nat) (dl : Nat) : Nat → Nat → Bool × List DevOp
  | _, 0 => (false, [])
  | t, fuel + 1 =>
    if t < dl then
      match fileAt with
      | some te =>
        if te ≤ t + 300 then (true, [DevOp.waitEvent 300])
        else
          ((captureWaitAux fileAt dl (t + 300) fuel).1,
           DevOp.waitEvent 300 :: (captureWaitAux fileAt dl (t + 300) fuel).2)
      | none =>
        ((captureWaitAux fileAt dl (t + 300) fuel).1,
         DevOp.waitEvent 300 :: (captureWaitAux fileAt dl (t + 300) fuel).2)
    else (false, [])

/-- Model of `QuickCaptureApp._do_capture.capture_job` (lines 663-696) as a function
of the job's start time `t0` and the (absolute) arrival time of a
file-added event, if any. The release sequence takes `4 * debounce` ms of
sleeps; the 8 s deadline is computed *after* the release sequence
(line 671: `deadline = time.time() + 8`); then the event loop polls until
the deadline. On receiving the event the job runs the success tail and
returns; if the deadline elapses it raises
`RuntimeError("Timed out — no image received")`. -/
def captureJob (fileAt : Option Nat) (t0 : Nat) : Except String Unit × List DevOp :=
  if (captureWaitAux fileAt (t0 + 4 * debounce + 8000) (t0 + 4 * debounce) 8000).1 then
    (Except.ok (),
     releaseSeqOps
       ++ (captureWaitAux fileAt (t0 + 4 * debounce + 8000) (t0 + 4 * debounce) 8000).2
       ++ successTail)
  else
    (Except.error ("Timed out — no image received"),
     releaseSeqOps
       ++ (captureWaitAux fileAt (t0 + 4 * debounce + 8000) (t0 + 4 * debounce) 8000).2)

/-- Model of `QuickCaptureApp._do_af.af_job` (lines 631-643): read the config, write
`autofocusdrive` to 0, sleep 0.1 s, read the config again, write
`autofocusdrive` to 1, and sleep 2 s for the lens to seek. -/
def afJob : List DevOp :=
  [.getConfig, .setCtrl ("autofocusdrive") (CtrlVal.n 0), .sleep 100,
   .getConfig, .setCtrl ("autofocusdrive") (CtrlVal.n 1), .sleep 2000]

end QuickCaptureApp

/-- The writes a device-operation list makes to the `autofocusdrive`
control, in order. -/
def afWrites (ops : List DevOp) : List CtrlVal :=
  ops.filterMap fun op =>
    match op with
    | .setCtrl ("autofocusdrive") v => some v
    | _ => none

/-- Recognizer for job-execution events in a loop trace. -/
def isRunEv : LEvent → Bool
  | .run _ => true
  | _ => false

/-- Recognizer for polling events (the preview pull and the event poll)
in a loop trace. -/
def isPollish : LEvent → Bool
  | .previewOp => true
  | .pollOp => true
  | _ => false

open CameraThread QuickCaptureApp

/-- A filter by a predicate that is false on every element is empty. -/
theorem filter_nil_of_all {α : Type} (p : α → Bool) (l : List α)
    (h : ∀ a ∈ l, p a = false) : l.filter p = [] := by
  induction l with
  | nil => rfl
  | cons a t ih =>
    rw [List.filter_cons]
    simp only [h a (List.mem_cons_self a t), Bool.false_eq_true, if_false]
    exact ih fun x hx => h x (List.mem_cons_of_mem a hx)

/-- Step equation for the drain loop on a successful job. -/
theorem drainJobs_cons_ok (j : QJob) (rest : List QJob)
    (hj : j.outcome = JobOutcome.ok) :
    drainJobs (j :: rest)
      = ⟨LEvent.run j :: LEvent.setDone j :: (drainJobs rest).trace,
         ⟨j, true, true, OneShot.new.set⟩ :: (drainJobs rest).records,
         (drainJobs rest).remaining, (drainJobs rest).disconnected⟩ := by
  simp [drainJobs, runOne, hj]

/-- Step equation for the drain loop on a job raising the disconnect-class
error: the `except` branch signals the handle and breaks, then the
`finally` signals it a second time; the rest of the queue is left. -/
theorem drainJobs_cons_io (j : QJob) (rest : List QJob)
    (hj : j.outcome = JobOutcome.gpErr gpErrorIo) :
    drainJobs (j :: rest)
      = ⟨[LEvent.run j, LEvent.setDone j, LEvent.setDone j],
         [⟨j, true, false, OneShot.new.set.set⟩], rest, true⟩ := by
  simp [drainJobs, runOne, hj]

/-- Step equation for the drain loop on a job raising a non-disconnect
`GPhoto2Error`: a status warning, then the `finally` signals the handle. -/
theorem drainJobs_cons_gp (j : QJob) (rest : List QJob) (c : Int)
    (hj : j.outcome = JobOutcome.gpErr c) (hc : ¬c = gpErrorIo) :
    drainJobs (j :: rest)
      = ⟨LEvent.run j :: LEvent.statusEv ("warn gphoto2 error " ++ toString c) false
           :: LEvent.setDone j :: (drainJobs rest).trace,
         ⟨j, true, false, OneShot.new.set⟩ :: (drainJobs rest).records,
         (drainJobs rest).remaining, (drainJobs rest).disconnected⟩ := by
  simp [drainJobs, runOne, hj, hc]

/-- Step equation for the drain loop on a job raising any other
exception: a status warning, then the `finally` signals the handle. -/
theorem drainJobs_cons_exc (j : QJob) (rest : List QJob) (m : String)
    (hj : j.outcome = JobOutcome.exc m) :
    drainJobs (j :: rest)
      = ⟨LEvent.run j :: LEvent.statusEv ("warn " ++ m) false
           :: LEvent.setDone j :: (drainJobs rest).trace,
         ⟨j, true, false, OneShot.new.set⟩ :: (drainJobs rest).records,
         (drainJobs rest).remaining, (drainJobs rest).disconnected⟩ := by
  simp [drainJobs, runOne, hj]

/-- Every job popped by the drain loop ends with its handle signaled,
transitioned exactly once, and was actually invoked. -/
theorem drainJobs_records_signaled (q : List QJob) :
    ∀ r ∈ (drainJobs q).records,
      r.handle.isSet = true ∧ r.handle.transitions = 1 ∧ r.ran = true := by
  induction q with
  | nil => simp [drainJobs]
  | cons j rest ih =>
    intro r hr
    cases hj : j.outcome with
    | ok =>
      rw [drainJobs_cons_ok j rest hj] at hr
      rcases List.mem_cons.1 hr with h | h
      · subst h; simp [OneShot.new, OneShot.set]
      · exact ih r h
    | gpErr c =>
      by_cases hc : c = gpErrorIo
      · subst hc
        rw [drainJobs_cons_io j rest hj] at hr
        simp only [List.mem_singleton] at hr
        subst hr
        simp [OneShot.new, OneShot.set]
      · rw [drainJobs_cons_gp j rest c hj hc] at hr
        rcases List.mem_cons.1 hr with h | h
        · subst h; simp [OneShot.new, OneShot.set]
        · exact ih r h
    | exc m =>
      rw [drainJobs_cons_exc j rest m hj] at hr
      rcases List.mem_cons.1 hr with h | h
      · subst h; simp [OneShot.new, OneShot.set]
      · exact ih r h

/-- The jobs popped by the drain loop followed by the jobs it left queued
are exactly the original queue, in order. -/
theorem drainJobs_partition (q : List QJob) :
    ((drainJobs q).records.map fun r => r.job) ++ (drainJobs q).remaining = q := by
  induction q with
  | nil => simp [drainJobs]
  | cons j rest ih =>
    cases hj : j.outcome with
    | ok => rw [drainJobs_cons_ok j rest hj]; simpa using ih
    | gpErr c =>
      by_cases hc : c = gpErrorIo
      · subst hc; rw [drainJobs_cons_io j rest hj]; simp
      · rw [drainJobs_cons_gp j rest c hj hc]; simpa using ih
    | exc m => rw [drainJobs_cons_exc j rest m hj]; simpa using ih

/-- If the drain loop was not broken by a disconnect, it emptied the
queue. -/
theorem drainJobs_all_popped (q : List QJob)
    (h : (drainJobs q).disconnected = false) : (drainJobs q).remaining = [] := by
  induction q with
  | nil => simp [drainJobs]
  | cons j rest ih =>
    cases hj : j.outcome with
    | ok =>
      rw [drainJobs_cons_ok j rest hj] at h ⊢
      exact ih h
    | gpErr c =>
      by_cases hc : c = gpErrorIo
      · subst hc; rw [drainJobs_cons_io j rest hj] at h; exact absurd h (by simp)
      · rw [drainJobs_cons_gp j rest c hj hc] at h ⊢
        exact ih h
    | exc m =>
      rw [drainJobs_cons_exc j rest m hj] at h ⊢
      exact ih h

/-- The drain trace contains only job runs, handle signals and status
messages: never a polling operation nor a disconnect notification. -/
theorem drainJobs_trace_kinds (q : List QJob) :
    ∀ e ∈ (drainJobs q).trace, isPollish e = false ∧ e ≠ LEvent.disconnectCb := by
  induction q with
  | nil => simp [drainJobs]
  | cons j rest ih =>
    intro e he
    cases hj : j.outcome with
    | ok =>
      rw [drainJobs_cons_ok j rest hj] at he
      rcases List.mem_cons.1 he with h | h
      · subst h; simp [isPollish]
      rcases List.mem_cons.1 h with h2 | h2
      · subst h2; simp [isPollish]
      · exact ih e h2
    | gpErr c =>
      by_cases hc : c = gpErrorIo
      · subst hc
        rw [drainJobs_cons_io j rest hj] at he
        simp only [List.mem_cons, List.not_mem_nil, or_false] at he
        rcases he with h | h | h <;> subst h <;> simp [isPollish]
      · rw [drainJobs_cons_gp j rest c hj hc] at he
        rcases List.mem_cons.1 he with h | h
        · subst h; simp [isPollish]
        rcases List.mem_cons.1 h with h2 | h2
        · subst h2; simp [isPollish]
        rcases List.mem_cons.1 h2 with h3 | h3
        · subst h3; simp [isPollish]
        · exact ih e h3
    | exc m =>
      rw [drainJobs_cons_exc j rest m hj] at he
      rcases List.mem_cons.1 he with h | h
      · subst h; simp [isPollish]
      rcases List.mem_cons.1 h with h2 | h2
      · subst h2; simp [isPollish]
      rcases List.mem_cons.1 h2 with h3 | h3
      · subst h3; simp [isPollish]
      · exact ih e h3

/-- Draining a queue of only-successful jobs runs each of them, in order,
with every handle signaled once, and does not disconnect. -/
theorem drainJobs_all_ok (q : List QJob) (h : ∀ j ∈ q, j.outcome = JobOutcome.ok) :
    (drainJobs q).records = (q.map fun j => ⟨j, true, true, OneShot.new.set⟩)
      ∧ (drainJobs q).disconnected = false
      ∧ (drainJobs q).remaining = [] := by
  induction q with
  | nil => simp [drainJobs]
  | cons j rest ih =>
    have hj := h j (List.mem_cons_self j rest)
    have hrest := ih fun x hx => h x (List.mem_cons_of_mem j hx)
    rw [drainJobs_cons_ok j rest hj]
    exact ⟨by rw [List.map_cons, hrest.1], hrest.2.1, hrest.2.2⟩

/-- Draining a queue whose head segment succeeds and whose next job raises
the disconnect-class error runs exactly the head segment and that job (the
latter signaled twice by `except` and `finally`, still one transition),
and leaves the tail queued. -/
theorem drainJobs_split (a : List QJob) (jk : QJob) (b : List QJob)
    (ha : ∀ j ∈ a, j.outcome = JobOutcome.ok)
    (hk : jk.outcome = JobOutcome.gpErr gpErrorIo) :
    (drainJobs (a ++ jk :: b)).records
        = (a.map fun j => ⟨j, true, true, OneShot.new.set⟩)
          ++ [⟨jk, true, false, OneShot.new.set.set⟩]
      ∧ (drainJobs (a ++ jk :: b)).remaining = b
      ∧ (drainJobs (a ++ jk :: b)).disconnected = true := by
  induction a with
  | nil => rw [List.nil_append, drainJobs_cons_io jk b hk]; simp
  | cons j rest ih =>
    have hj := ha j (List.mem_cons_self j rest)
    have hrest := ih fun x hx => ha x (List.mem_cons_of_mem j hx)
    rw [List.cons_append, drainJobs_cons_ok j (rest ++ jk :: b) hj]
    exact ⟨by rw [List.map_cons, hrest.1]; simp, hrest.2.1, hrest.2.2⟩

/-- The drain `_drain_queue` signals every pending handle once without invoking any
job, in queue order. -/
theorem drainQueue_records (q : List QJob) :
    (((drainQueue q).2.map fun r => r.job) = q)
      ∧ ∀ r ∈ (drainQueue q).2,
          r.handle.isSet = true ∧ r.handle.transitions = 1 ∧ r.ran = false := by
  constructor
  · simp only [drainQueue, List.map_map]
    have hco : ((fun (r : JobRecord) => r.job)
        ∘ fun j => (⟨j, false, false, OneShot.new.set⟩ : JobRecord)) = fun j => j := rfl
    rw [hco, List.map_id']
  · intro r hr
    simp only [drainQueue, List.mem_map] at hr
    obtain ⟨j, hj, rfl⟩ := hr
    simp [OneShot.new, OneShot.set]

/-- The reconnect cleanup emits only handle signals, the disconnect
notification, the handle release and the backoff sleep: no polling and no
job run. -/
theorem reconnectCleanup_trace_kinds (rem : List QJob) :
    ∀ e ∈ (reconnectCleanup rem).1, isPollish e = false ∧ isRunEv e = false := by
  intro e he
  simp only [reconnectCleanup, drainQueue] at he
  rcases List.mem_append.1 he with h | h
  · obtain ⟨j, hj, rfl⟩ := List.mem_map.1 h
    simp [isPollish, isRunEv]
  · simp only [List.mem_cons, List.not_mem_nil, or_false] at h
    rcases h with h | h | h <;> subst h <;> simp [isPollish, isRunEv]

/-- The reconnect cleanup always notifies the UI of the disconnect. -/
theorem reconnectCleanup_notifies (rem : List QJob) :
    LEvent.disconnectCb ∈ (reconnectCleanup rem).1 := by
  simp [reconnectCleanup]

/-- Case equation of `iterFull`: a disconnect-class error during a job
skips polling entirely and runs the reconnect cleanup. -/
theorem iterFull_eq_discCase (inp : IterIn)
    (hd : (drainJobs inp.queue).disconnected = true) :
    iterFull inp =
      ⟨(drainJobs inp.queue).trace ++ (reconnectCleanup (drainJobs inp.queue).remaining).1,
       (drainJobs inp.queue).records ++ (reconnectCleanup (drainJobs inp.queue).remaining).2,
       .reconnect⟩ := by
  simp [iterFull, hd]

/-- Case equation of `iterFull`: a disconnect-class error during the
preview pull breaks to the reconnect cleanup before the event poll. -/
theorem iterFull_eq_prevBreak (inp : IterIn)
    (hd : (drainJobs inp.queue).disconnected = false)
    (hb : (previewStep inp.prevOut).2 = true) :
    iterFull inp =
      ⟨(drainJobs inp.queue).trace ++ (previewStep inp.prevOut).1
         ++ (reconnectCleanup (drainJobs inp.queue).remaining).1,
       (drainJobs inp.queue).records ++ (reconnectCleanup (drainJobs inp.queue).remaining).2,
       .reconnect⟩ := by
  simp [iterFull, hd, hb]

/-- Case equation of `iterFull`: the normal path drains, previews, polls
and continues. -/
theorem iterFull_eq_normal (inp : IterIn)
    (hd : (drainJobs inp.queue).disconnected = false)
    (hb : (previewStep inp.prevOut).2 = false) :
    iterFull inp =
      ⟨(drainJobs inp.queue).trace ++ (previewStep inp.prevOut).1 ++ pollStep inp.pollOut,
       (drainJobs inp.queue).records, .continueLoop⟩ := by
  simp [iterFull, hd, hb]

/-- Claim-independent accounting for one full iteration of the connected
loop: the job records are exactly the jobs queued at the top of the
iteration, in order, and every one of those completion handles ends
signaled with exactly one transition. -/
theorem iterFull_account (inp : IterIn) :
    (((iterFull inp).records.map fun r => r.job) = inp.queue)
      ∧ ∀ r ∈ (iterFull inp).records,
          r.handle.isSet = true ∧ r.handle.transitions = 1 := by
  have hpart := drainJobs_partition inp.queue
  have hsig := drainJobs_records_signaled inp.queue
  have hq := drainQueue_records (drainJobs inp.queue).remaining
  have hrecs : ∀ r ∈ (drainJobs inp.queue).records
      ++ (reconnectCleanup (drainJobs inp.queue).remaining).2,
      r.handle.isSet = true ∧ r.handle.transitions = 1 := by
    intro r hr
    rcases List.mem_append.1 hr with h | h
    · exact ⟨(hsig r h).1, (hsig r h).2.1⟩
    · exact ⟨(hq.2 r h).1, (hq.2 r h).2.1⟩
  have hmap : ((drainJobs inp.queue).records
      ++ (reconnectCleanup (drainJobs inp.queue).remaining).2).map (fun r => r.job)
      = inp.queue := by
    rw [List.map_append]
    have hcl : (reconnectCleanup (drainJobs inp.queue).remaining).2
        = (drainQueue (drainJobs inp.queue).remaining).2 := rfl
    rw [hcl, hq.1]
    exact hpart
  cases hd : (drainJobs inp.queue).disconnected with
  | true =>
    rw [iterFull_eq_discCase inp hd]
    exact ⟨hmap, hrecs⟩
  | false =>
    cases hb : (previewStep inp.prevOut).2 with
    | true =>
      rw [iterFull_eq_prevBreak inp hd hb]
      exact ⟨hmap, hrecs⟩
    | false =>
      rw [iterFull_eq_normal inp hd hb]
      have hrem := drainJobs_all_popped inp.queue hd
      constructor
      · rw [hrem, List.append_nil] at hpart
        exact hpart
      · intro r hr
        exact ⟨(hsig r hr).1, (hsig r hr).2.1⟩

/-- If a pending file-added event falls within the poll window, the
capture wait loop (given enough fuel, which the callers always supply)
reports success. -/
theorem captureWaitAux_finds (te dl : Nat) :
    ∀ fuel t, t < dl → te ≤ dl → dl ≤ t + 300 * fuel →
      (captureWaitAux (some te) dl t fuel).1 = true := by
  intro fuel
  induction fuel with
  | zero => intro t h1 _ h3; omega
  | succ n ih =>
    intro t h1 h2 h3
    by_cases he : te ≤ t + 300
    · simp [captureWaitAux, h1, he]
    · have h4 : t + 300 < dl := by omega
      simp only [captureWaitAux, if_pos h1, if_neg he]
      exact ih (t + 300) h4 h2 (by omega)

/-- With no file-added event the capture wait loop never succeeds. -/
theorem captureWaitAux_none (dl : Nat) :
    ∀ fuel t, (captureWaitAux none dl t fuel).1 = false := by
  intro fuel
  induction fuel with
  | zero => intro t; rfl
  | succ n ih =>
    intro t
    by_cases h1 : t < dl
    · simp only [captureWaitAux, if_pos h1]
      exact ih (t + 300)
    · simp [captureWaitAux, h1]

/-- Every failing `_connect` attempt reports failure (`return None`). -/
theorem connectAttempt_fail (f : ConnStep) : (connectAttempt (some f)).1 = false := by
  cases f <;> rfl

/-- No `_connect` attempt ever invokes a queued job. -/
theorem connectAttempt_no_run (c : Option ConnStep) :
    ∀ e ∈ (connectAttempt c).2, isRunEv e = false := by
  rcases c with _ | f
  · decide
  · cases f <;> decide

/-- Step equation of the acquisition loop: `_running` found cleared makes
`_loop` return at line 277 with the queue untouched and unsignaled. -/
theorem acqLoop_cons_stop (r : AcqRound) (rest : List AcqRound) (q0 : List QJob)
    (hr : r.running = false) :
    acqLoop (r :: rest) q0 = ⟨[], [], q0 ++ r.arriving, 0, .shutdown⟩ := by
  simp [acqLoop, hr]

/-- Step equation of the acquisition loop: a successful `_connect` attempt
hands the intact queue to the connected loop. -/
theorem acqLoop_cons_success (r : AcqRound) (rest : List AcqRound) (q0 : List QJob)
    (hr : r.running = true) (hc : r.connFail = none) :
    acqLoop (r :: rest) q0
      = ⟨(connectAttempt none).2, [], q0 ++ r.arriving, 1, .connected⟩ := by
  simp [acqLoop, hr, hc, connectAttempt]

/-- Step equation of the acquisition loop: a failed `_connect` attempt
drains the queue, reports the persistent no-camera status, sleeps the 2 s
backoff and retries. -/
theorem acqLoop_cons_fail (r : AcqRound) (rest : List AcqRound) (q0 : List QJob)
    (f : ConnStep) (hr : r.running = true) (hc : r.connFail = some f) :
    acqLoop (r :: rest) q0
      = ⟨(connectAttempt (some f)).2
           ++ (drainQueue (q0 ++ r.arriving)).1
           ++ [.statusEv ("No camera -- waiting...") true, .sleepEv 2000]
           ++ (acqLoop rest []).trace,
         (drainQueue (q0 ++ r.arriving)).2 ++ (acqLoop rest []).records,
         (acqLoop rest []).pending,
         (acqLoop rest []).attempts + 1,
         (acqLoop rest []).exit⟩ := by
  simp [acqLoop, hr, hc, connectAttempt_fail f]

/-- Every job discarded during the acquisition phase has its handle
signaled exactly once and was never invoked. -/
theorem acqLoop_records_signaled (rounds : List AcqRound) :
    ∀ q0, ∀ r ∈ (acqLoop rounds q0).records,
      r.handle.isSet = true ∧ r.handle.transitions = 1 ∧ r.ran = false := by
  induction rounds with
  | nil => intro q0; simp [acqLoop]
  | cons rd rest ih =>
    intro q0 r hr
    cases hrun : rd.running with
    | false =>
      rw [acqLoop_cons_stop rd rest q0 hrun] at hr
      simp at hr
    | true =>
      rcases hcf : rd.connFail with _ | f
      · rw [acqLoop_cons_success rd rest q0 hrun hcf] at hr
        simp at hr
      · rw [acqLoop_cons_fail rd rest q0 f hrun hcf] at hr
        rcases List.mem_append.1 hr with h | h
        · exact (drainQueue_records (q0 ++ rd.arriving)).2 r h
        · exact ih [] r h

/-- The acquisition phase never invokes a job body: no live handle exists
there, and `_drain_queue` only signals handles. -/
theorem acqLoop_no_runs (rounds : List AcqRound) :
    ∀ q0, ∀ e ∈ (acqLoop rounds q0).trace, isRunEv e = false := by
  induction rounds with
  | nil => intro q0; simp [acqLoop]
  | cons rd rest ih =>
    intro q0 e he
    cases hrun : rd.running with
    | false =>
      rw [acqLoop_cons_stop rd rest q0 hrun] at he
      simp at he
    | true =>
      rcases hcf : rd.connFail with _ | f
      · rw [acqLoop_cons_success rd rest q0 hrun hcf] at he
        exact connectAttempt_no_run none e he
      · rw [acqLoop_cons_fail rd rest q0 f hrun hcf] at he
        rcases List.mem_append.1 he with h | h
        · rcases List.mem_append.1 h with h2 | h2
          · rcases List.mem_append.1 h2 with h3 | h3
            · exact connectAttempt_no_run (some f) e h3
            · obtain ⟨j, hj, rfl⟩ := List.mem_map.1 h3
              rfl
          · simp only [List.mem_cons, List.not_mem_nil, or_false] at h2
            rcases h2 with h4 | h4 <;> subst h4 <;> rfl
        · exact ih [] e h

/-- While `_running` holds and every attempt fails, the acquisition loop
keeps making one `_connect` attempt per round and is still retrying after
the whole schedule: it gives up only on success or shutdown. -/
theorem acqLoop_retries_forever (rounds : List AcqRound) :
    ∀ q0, (∀ r ∈ rounds, r.running = true ∧ r.connFail ≠ none) →
      (acqLoop rounds q0).exit = AcqExit.retrying
        ∧ (acqLoop rounds q0).attempts = rounds.length := by
  induction rounds with
  | nil => intro q0 _; exact ⟨rfl, rfl⟩
  | cons rd rest ih =>
    intro q0 h
    have hrd := h rd (List.mem_cons_self rd rest)
    rcases hcf : rd.connFail with _ | f
    · exact absurd hcf hrd.2
    · have hrest := ih [] fun x hx => h x (List.mem_cons_of_mem rd hx)
      rw [acqLoop_cons_fail rd rest q0 f hrd.1 hcf]
      exact ⟨hrest.1, by simp [hrest.2]⟩

/-- The capture wait loop emits only 300 ms event polls. -/
theorem captureWaitAux_ops (fileAt : Option Nat) (dl : Nat) :
    ∀ fuel t, ∀ op ∈ (captureWaitAux fileAt dl t fuel).2, op = DevOp.waitEvent 300 := by
  intro fuel
  induction fuel with
  | zero => intro t op hop; simp [captureWaitAux] at hop
  | succ n ih =>
    intro t op hop
    by_cases h1 : t < dl
    · cases fileAt with
      | some te =>
        by_cases he : te ≤ t + 300
        · simp only [captureWaitAux, if_pos h1, if_pos he, List.mem_singleton] at hop
          exact hop
        · simp only [captureWaitAux, if_pos h1, if_neg he, List.mem_cons] at hop
          rcases hop with h | h
          · exact h
          · exact ih (t + 300) op h
      | none =>
        simp only [captureWaitAux, if_pos h1, List.mem_cons] at hop
        rcases hop with h | h
        · exact h
        · exact ih (t + 300) op h
    · simp [captureWaitAux, h1] at hop

/-- Preview-step traces never contain a job-run event. -/
theorem previewStep_no_run (p : PrevOut) :
    ∀ e ∈ (previewStep p).1, isRunEv e = false := by
  cases p <;> decide

/-- Event-poll traces never contain a job-run event. -/
theorem pollStep_no_run (po : PollOut) :
    ∀ e ∈ pollStep po, isRunEv e = false := by
  cases po <;> decide

/-- Claim C2: if the jobs queued ahead of job `jk` succeed and `jk` raises
the disconnect-class error, then one iteration of the dispatcher runs the
leading jobs to completion in submission order, runs `jk` but marks it done
without completing it (its handle transitions exactly once, despite the
double `set()` of `except` plus `finally`), signals every job queued
behind `jk` done without ever running it, and breaks to reconnect. -/
theorem disconnect_mid_queue_partition (a b : List QJob) (jk : QJob)
    (p : PrevOut) (po : PollOut)
    (ha : ∀ j ∈ a, j.outcome = JobOutcome.ok)
    (hk : jk.outcome = JobOutcome.gpErr gpErrorIo) :
    ((iterFull ⟨a ++ jk :: b, p, po⟩).records
        = (a.map fun j => ⟨j, true, true, OneShot.new.set⟩)
          ++ ⟨jk, true, false, OneShot.new.set.set⟩
          :: (b.map fun j => ⟨j, false, false, OneShot.new.set⟩))
      ∧ (iterFull ⟨a ++ jk :: b, p, po⟩).next = NextStep.reconnect
      ∧ OneShot.new.set.transitions = 1
      ∧ OneShot.new.set.set.transitions = 1 := by
  have hs := drainJobs_split a jk b ha hk
  have heq := iterFull_eq_discCase ⟨a ++ jk :: b, p, po⟩ hs.2.2
  refine ⟨?_, ?_, rfl, rfl⟩
  · rw [heq]
    dsimp only
    rw [hs.1, hs.2.1]
    simp [reconnectCleanup, drainQueue]
  · rw [heq]

/-- Claim C2 witness: a concrete three-job queue where the middle job
raises the disconnect-class error. -/
theorem disconnect_mid_queue_partition_witness :
    (∀ j ∈ [(⟨1, JobOutcome.ok⟩ : QJob)], j.outcome = JobOutcome.ok)
      ∧ (⟨2, JobOutcome.gpErr gpErrorIo⟩ : QJob).outcome = JobOutcome.gpErr gpErrorIo
      ∧ (((iterFull ⟨[⟨1, JobOutcome.ok⟩] ++ (⟨2, JobOutcome.gpErr gpErrorIo⟩ : QJob)
            :: [⟨3, JobOutcome.ok⟩], PrevOut.ok, PollOut.noEvent⟩).records
          = ([(⟨1, JobOutcome.ok⟩ : QJob)].map fun j => ⟨j, true, true, OneShot.new.set⟩)
            ++ ⟨⟨2, JobOutcome.gpErr gpErrorIo⟩, true, false, OneShot.new.set.set⟩
            :: ([(⟨3, JobOutcome.ok⟩ : QJob)].map fun j => ⟨j, false, false, OneShot.new.set⟩))
        ∧ (iterFull ⟨[⟨1, JobOutcome.ok⟩] ++ (⟨2, JobOutcome.gpErr gpErrorIo⟩ : QJob)
            :: [⟨3, JobOutcome.ok⟩], PrevOut.ok, PollOut.noEvent⟩).next = NextStep.reconnect
        ∧ OneShot.new.set.transitions = 1
        ∧ OneShot.new.set.set.transitions = 1) :=
  ⟨by decide, rfl,
   disconnect_mid_queue_partition [⟨1, JobOutcome.ok⟩] [⟨3, JobOutcome.ok⟩]
     ⟨2, JobOutcome.gpErr gpErrorIo⟩ PrevOut.ok PollOut.noEvent (by decide) rfl⟩

/-- Claim C7: in every iteration of the connected loop, every job
execution precedes every polling operation in the trace (the trace splits
into a poll-free prefix and a run-free suffix), and if any polling
operation occurs at all then the drain left the job queue empty — polling
happens only once the queue has been fully drained and never interleaves
with job execution. -/
theorem jobs_drained_before_polling (inp : IterIn) :
    (∃ l1 l2, (iterFull inp).trace = l1 ++ l2
        ∧ l1.filter isPollish = [] ∧ l2.filter isRunEv = [])
      ∧ ((iterFull inp).trace.filter isPollish ≠ []
          → (drainJobs inp.queue).remaining = []) := by
  have hdtr : (drainJobs inp.queue).trace.filter isPollish = [] :=
    filter_nil_of_all _ _ fun e he => (drainJobs_trace_kinds inp.queue e he).1
  have hcl1 : ∀ rem : List QJob, (reconnectCleanup rem).1.filter isRunEv = [] :=
    fun rem => filter_nil_of_all _ _ fun e he => (reconnectCleanup_trace_kinds rem e he).2
  have hcl2 : ∀ rem : List QJob, (reconnectCleanup rem).1.filter isPollish = [] :=
    fun rem => filter_nil_of_all _ _ fun e he => (reconnectCleanup_trace_kinds rem e he).1
  cases hd : (drainJobs inp.queue).disconnected with
  | true =>
    rw [iterFull_eq_discCase inp hd]
    constructor
    · exact ⟨(drainJobs inp.queue).trace, (reconnectCleanup (drainJobs inp.queue).remaining).1,
        rfl, hdtr, hcl1 _⟩
    · intro hne
      refine absurd ?_ hne
      dsimp only
      simp [List.filter_append, hdtr, hcl2]
  | false =>
    have hrem := drainJobs_all_popped inp.queue hd
    cases hb : (previewStep inp.prevOut).2 with
    | true =>
      rw [iterFull_eq_prevBreak inp hd hb]
      refine ⟨⟨(drainJobs inp.queue).trace,
        (previewStep inp.prevOut).1 ++ (reconnectCleanup (drainJobs inp.queue).remaining).1,
        by simp, hdtr, ?_⟩, fun _ => hrem⟩
      rw [List.filter_append, hcl1, List.append_nil]
      exact filter_nil_of_all _ _ (previewStep_no_run inp.prevOut)
    | false =>
      rw [iterFull_eq_normal inp hd hb]
      refine ⟨⟨(drainJobs inp.queue).trace,
        (previewStep inp.prevOut).1 ++ pollStep inp.pollOut,
        by simp, hdtr, ?_⟩, fun _ => hrem⟩
      rw [List.filter_append]
      rw [filter_nil_of_all _ _ (previewStep_no_run inp.prevOut),
        filter_nil_of_all _ _ (pollStep_no_run inp.pollOut)]
      rfl

/-- Claim C7 witness: a concrete iteration with one queued job. -/
theorem jobs_drained_before_polling_witness :
    (∃ l1 l2, (iterFull ⟨[⟨1, JobOutcome.ok⟩], PrevOut.ok, PollOut.noEvent⟩).trace = l1 ++ l2
        ∧ l1.filter isPollish = [] ∧ l2.filter isRunEv = [])
      ∧ ((iterFull ⟨[⟨1, JobOutcome.ok⟩], PrevOut.ok, PollOut.noEvent⟩).trace.filter isPollish ≠ []
          → (drainJobs [⟨1, JobOutcome.ok⟩]).remaining = []) :=
  jobs_drained_before_polling ⟨[⟨1, JobOutcome.ok⟩], PrevOut.ok, PollOut.noEvent⟩

/-- Claim C8: `stop` is idempotent — a second call leaves the state
unchanged and performs no handle operation, only the bounded join — and
every call clears `_running`, releases the retained handle (if any)
directly from the caller's thread *before* joining, and ends with a join
bounded by the 2 s timeout (never an unbounded join), so `stop` returns
within a bounded time even while a job is mid-flight. -/
theorem stop_idempotent_bounded :
    (∀ s : CTState, (CameraThread.stop (CameraThread.stop s).1).1 = (CameraThread.stop s).1
        ∧ (CameraThread.stop s).1.running = false
        ∧ (CameraThread.stop s).1.camRef = none)
      ∧ (∀ s : CTState,
          (CameraThread.stop (CameraThread.stop s).1).2 = [StopOp.joinThread (some 2000)])
      ∧ (∀ s : CTState, ∃ pre, (CameraThread.stop s).2 = pre ++ [StopOp.joinThread (some 2000)]
          ∧ ∀ op ∈ pre, ∃ hh, op = StopOp.exitHandle hh) := by
  refine ⟨?_, ?_, ?_⟩
  · intro s
    rcases s with ⟨rn, cr⟩
    cases cr <;> exact ⟨rfl, rfl, rfl⟩
  · intro s
    rcases s with ⟨rn, cr⟩
    cases cr <;> rfl
  · intro s
    rcases s with ⟨rn, cr⟩
    cases cr with
    | none => exact ⟨[], rfl, by simp⟩
    | some hh => exact ⟨[StopOp.exitHandle hh], rfl, by simp⟩

/-- Claim C8 witness: a concrete state with a live retained handle. -/
theorem stop_idempotent_bounded_witness :
    ((CameraThread.stop (CameraThread.stop ⟨true, some 7⟩).1).1
        = (CameraThread.stop ⟨true, some 7⟩).1
      ∧ (CameraThread.stop ⟨true, some 7⟩).1.running = false
      ∧ (CameraThread.stop ⟨true, some 7⟩).1.camRef = none)
      ∧ (CameraThread.stop (CameraThread.stop ⟨true, some 7⟩).1).2
          = [StopOp.joinThread (some 2000)]
      ∧ (∃ pre, (CameraThread.stop ⟨true, some 7⟩).2
            = pre ++ [StopOp.joinThread (some 2000)]
          ∧ ∀ op ∈ pre, ∃ hh, op = StopOp.exitHandle hh) :=
  ⟨stop_idempotent_bounded.1 ⟨true, some 7⟩,
   stop_idempotent_bounded.2.1 ⟨true, some 7⟩,
   stop_idempotent_bounded.2.2 ⟨true, some 7⟩⟩

/-- Claim C9: the autofocus job always writes `autofocusdrive` to 0 and
then to 1, as two separate writes; two invocations in immediate succession
emit the full four-write sequence 0,1,0,1; and in any surrounding context
each invocation contributes exactly its own 0-then-1 pair — the sequence
is never collapsed to a single write. -/
theorem af_trigger_two_writes :
    afWrites QuickCaptureApp.afJob = [CtrlVal.n 0, CtrlVal.n 1]
      ∧ afWrites (QuickCaptureApp.afJob ++ QuickCaptureApp.afJob)
          = [CtrlVal.n 0, CtrlVal.n 1, CtrlVal.n 0, CtrlVal.n 1]
      ∧ ∀ pre post, afWrites (pre ++ QuickCaptureApp.afJob ++ post)
          = afWrites pre ++ [CtrlVal.n 0, CtrlVal.n 1] ++ afWrites post := by
  refine ⟨rfl, rfl, ?_⟩
  intro pre post
  simp [afWrites, List.filterMap_append, QuickCaptureApp.afJob]

/-- Claim C9 witness: instantiating the context conjunct at the
empty context recovers the single-invocation write sequence. -/
theorem af_trigger_two_writes_witness :
    afWrites ([] ++ QuickCaptureApp.afJob ++ [])
      = afWrites [] ++ [CtrlVal.n 0, CtrlVal.n 1] ++ afWrites [] :=
  af_trigger_two_writes.2.2 [] []

/-- If the preview pull does not raise the disconnect-class error, it does
not break the iteration. -/
theorem previewStep_no_break (p : PrevOut) (hp : p ≠ PrevOut.ioErr) :
    (previewStep p).2 = false := by
  cases p
  · rfl
  · exact absurd rfl hp
  · rfl
  · rfl

/-- Preview-step traces never contain the disconnect notification. -/
theorem previewStep_no_disc (p : PrevOut) :
    ∀ e ∈ (previewStep p).1, e ≠ LEvent.disconnectCb := by
  cases p <;> decide

/-- Claim C1 (amended): every job the dispatcher actually processes has
its completion handle signaled with exactly one unset→set transition —
jobs popped in the connected loop (success, transient error or
disconnect-class error), jobs discarded by the reconnect drain, jobs
discarded by the connected-loop shutdown drain, and jobs discarded at a
failed connect attempt. (As stated, the claim fails on the
shutdown-during-acquisition path, where the loop returns without draining;
see the counterexample.) -/
theorem every_processed_job_signals_once :
    (∀ inp : IterIn, (((iterFull inp).records.map fun r => r.job) = inp.queue)
        ∧ ∀ r ∈ (iterFull inp).records,
            r.handle.isSet = true ∧ r.handle.transitions = 1)
      ∧ (∀ q : List QJob, (((shutdownDrain q).2.map fun r => r.job) = q)
        ∧ ∀ r ∈ (shutdownDrain q).2,
            r.handle.isSet = true ∧ r.handle.transitions = 1)
      ∧ (∀ (rounds : List AcqRound) (q0 : List QJob),
          ∀ r ∈ (acqLoop rounds q0).records,
            r.handle.isSet = true ∧ r.handle.transitions = 1) := by
  refine ⟨iterFull_account, ?_, ?_⟩
  · intro q
    have h := drainQueue_records q
    exact ⟨h.1, fun r hr => ⟨(h.2 r hr).1, (h.2 r hr).2.1⟩⟩
  · intro rounds q0 r hr
    have h := acqLoop_records_signaled rounds q0 r hr
    exact ⟨h.1, h.2.1⟩

/-- Claim C1 witness: a concrete iteration, shutdown drain and failed
acquisition round, each signaling its job exactly once. -/
theorem every_processed_job_signals_once_witness :
    ((((iterFull ⟨[⟨1, JobOutcome.ok⟩], PrevOut.ok, PollOut.noEvent⟩).records.map
          fun r => r.job) = [⟨1, JobOutcome.ok⟩])
      ∧ ∀ r ∈ (iterFull ⟨[⟨1, JobOutcome.ok⟩], PrevOut.ok, PollOut.noEvent⟩).records,
          r.handle.isSet = true ∧ r.handle.transitions = 1)
      ∧ ((((shutdownDrain [⟨2, JobOutcome.ok⟩]).2.map fun r => r.job) = [⟨2, JobOutcome.ok⟩])
        ∧ ∀ r ∈ (shutdownDrain [⟨2, JobOutcome.ok⟩]).2,
            r.handle.isSet = true ∧ r.handle.transitions = 1)
      ∧ (∀ r ∈ (acqLoop [⟨[⟨3, JobOutcome.ok⟩], true, some ConnStep.atInit⟩] []).records,
          r.handle.isSet = true ∧ r.handle.transitions = 1) :=
  ⟨every_processed_job_signals_once.1 ⟨[⟨1, JobOutcome.ok⟩], PrevOut.ok, PollOut.noEvent⟩,
   every_processed_job_signals_once.2.1 [⟨2, JobOutcome.ok⟩],
   every_processed_job_signals_once.2.2 [⟨[⟨3, JobOutcome.ok⟩], true, some ConnStep.atInit⟩] []⟩

/-- Claim C1 counterexample: a job submitted while the dispatcher is in
the acquisition phase is never signaled if `_running` is cleared before
the next acquisition-loop condition check — the loop exits through the
bare `return` of line 277 without draining the queue: the run produces no
job record and an empty trace (no `setDone` whatsoever) while the job is
still pending at exit, so its submitter would wait forever. -/
theorem acquisition_shutdown_leaves_job_unsignaled :
    (acqLoop [⟨[⟨1, JobOutcome.ok⟩], false, none⟩] []).exit = AcqExit.shutdown
      ∧ (acqLoop [⟨[⟨1, JobOutcome.ok⟩], false, none⟩] []).records = []
      ∧ (acqLoop [⟨[⟨1, JobOutcome.ok⟩], false, none⟩] []).trace = []
      ∧ (acqLoop [⟨[⟨1, JobOutcome.ok⟩], false, none⟩] []).pending = [⟨1, JobOutcome.ok⟩] :=
  ⟨rfl, rfl, rfl, rfl⟩

/-- Claim C3 (amended): a disconnect-class error raised by job execution
or by the preview pull makes the dispatcher abandon the handle at once —
no polling operation after a job disconnect, no event poll after a preview
disconnect — notify the UI and go to reconnect; but a disconnect-class
error raised by the event poll is swallowed by its bare `except` handler:
the iteration ends normally and the loop continues on the same handle. -/
theorem disconnect_reaction_by_operation
    (a b q : List QJob) (jk : QJob) (p : PrevOut) (po po2 : PollOut)
    (ha : ∀ j ∈ a, j.outcome = JobOutcome.ok)
    (hk : jk.outcome = JobOutcome.gpErr gpErrorIo)
    (hq : (drainJobs q).disconnected = false)
    (hp : p ≠ PrevOut.ioErr) :
    ((iterFull ⟨a ++ jk :: b, p, po⟩).next = NextStep.reconnect
      ∧ (iterFull ⟨a ++ jk :: b, p, po⟩).trace.filter isPollish = []
      ∧ LEvent.disconnectCb ∈ (iterFull ⟨a ++ jk :: b, p, po⟩).trace)
    ∧ ((iterFull ⟨q, PrevOut.ioErr, po2⟩).next = NextStep.reconnect
      ∧ LEvent.pollOp ∉ (iterFull ⟨q, PrevOut.ioErr, po2⟩).trace
      ∧ LEvent.disconnectCb ∈ (iterFull ⟨q, PrevOut.ioErr, po2⟩).trace)
    ∧ ((iterFull ⟨q, p, PollOut.ioErr⟩).next = NextStep.continueLoop
      ∧ LEvent.disconnectCb ∉ (iterFull ⟨q, p, PollOut.ioErr⟩).trace) := by
  refine ⟨?_, ?_, ?_⟩
  · have hs := drainJobs_split a jk b ha hk
    have heq := iterFull_eq_discCase ⟨a ++ jk :: b, p, po⟩ hs.2.2
    refine ⟨by rw [heq], ?_, ?_⟩
    · rw [heq]
      dsimp only
      rw [List.filter_append,
        filter_nil_of_all _ _ fun e he => (drainJobs_trace_kinds _ e he).1,
        filter_nil_of_all _ _ fun e he => (reconnectCleanup_trace_kinds _ e he).1]
      rfl
    · rw [heq]
      dsimp only
      exact List.mem_append.2 (Or.inr (reconnectCleanup_notifies _))
  · have heq := iterFull_eq_prevBreak ⟨q, PrevOut.ioErr, po2⟩ hq rfl
    refine ⟨by rw [heq], ?_, ?_⟩
    · rw [heq]
      dsimp only
      intro hmem
      rcases List.mem_append.1 hmem with h | h
      · rcases List.mem_append.1 h with h2 | h2
        · simpa [isPollish] using (drainJobs_trace_kinds q _ h2).1
        · simp [previewStep] at h2
      · simpa [isPollish] using (reconnectCleanup_trace_kinds _ _ h).1
    · rw [heq]
      dsimp only
      exact List.mem_append.2 (Or.inr (reconnectCleanup_notifies _))
  · have heq := iterFull_eq_normal ⟨q, p, PollOut.ioErr⟩ hq (previewStep_no_break p hp)
    refine ⟨by rw [heq], ?_⟩
    rw [heq]
    dsimp only
    intro hmem
    rcases List.mem_append.1 hmem with h | h
    · rcases List.mem_append.1 h with h2 | h2
      · exact (drainJobs_trace_kinds q _ h2).2 rfl
      · exact previewStep_no_disc p _ h2 rfl
    · simp [pollStep] at h

/-- Claim C3 witness: concrete instantiations of the three disconnect
sites. -/
theorem disconnect_reaction_by_operation_witness :
    (∀ j ∈ ([] : List QJob), j.outcome = JobOutcome.ok)
      ∧ (⟨2, JobOutcome.gpErr gpErrorIo⟩ : QJob).outcome = JobOutcome.gpErr gpErrorIo
      ∧ (drainJobs []).disconnected = false
      ∧ PrevOut.ok ≠ PrevOut.ioErr
      ∧ (((iterFull ⟨[] ++ (⟨2, JobOutcome.gpErr gpErrorIo⟩ : QJob) :: [], PrevOut.ok,
            PollOut.noEvent⟩).next = NextStep.reconnect
          ∧ (iterFull ⟨[] ++ (⟨2, JobOutcome.gpErr gpErrorIo⟩ : QJob) :: [], PrevOut.ok,
              PollOut.noEvent⟩).trace.filter isPollish = []
          ∧ LEvent.disconnectCb ∈ (iterFull ⟨[] ++ (⟨2, JobOutcome.gpErr gpErrorIo⟩ : QJob)
              :: [], PrevOut.ok, PollOut.noEvent⟩).trace)
        ∧ ((iterFull ⟨[], PrevOut.ioErr, PollOut.noEvent⟩).next = NextStep.reconnect
          ∧ LEvent.pollOp ∉ (iterFull ⟨[], PrevOut.ioErr, PollOut.noEvent⟩).trace
          ∧ LEvent.disconnectCb ∈ (iterFull ⟨[], PrevOut.ioErr, PollOut.noEvent⟩).trace)
        ∧ ((iterFull ⟨[], PrevOut.ok, PollOut.ioErr⟩).next = NextStep.continueLoop
          ∧ LEvent.disconnectCb ∉ (iterFull ⟨[], PrevOut.ok, PollOut.ioErr⟩).trace)) :=
  ⟨by decide, rfl, rfl, by decide,
   disconnect_reaction_by_operation [] [] [] ⟨2, JobOutcome.gpErr gpErrorIo⟩
     PrevOut.ok PollOut.noEvent PollOut.noEvent (by decide) rfl rfl (by decide)⟩

/-- Claim C3 counterexample: the claim says a disconnect-class error from
*any* of the three operations (job, preview pull, event poll) makes the
dispatcher transition to reconnect — but when the event poll raises it,
the bare `except Exception: pass` of lines 323-324 swallows it: the
iteration continues the loop, no disconnect notification fires and the
handle is not released. -/
theorem event_poll_io_error_swallowed :
    (iterFull ⟨[], PrevOut.ok, PollOut.ioErr⟩).next = NextStep.continueLoop
      ∧ LEvent.disconnectCb ∉ (iterFull ⟨[], PrevOut.ok, PollOut.ioErr⟩).trace
      ∧ LEvent.camExit ∉ (iterFull ⟨[], PrevOut.ok, PollOut.ioErr⟩).trace := by
  decide

/-- Claim C4: every `_connect` attempt performs, in order, the platform
reset of competing daemons, the fixed 1.5 s settle delay, the handle open,
and the two baseline control writes (`imageformat = "L"` — the spec's
image-capture-target — then `viewfinder = 1`); every attempt, failing
wherever it may, still begins with reset and settle delay and returns no
handle; while `_running` holds and attempts keep failing the loop reports
the persistent no-camera status, sleeps the fixed 2 s backoff, and retries
with one attempt per round and no limit — it leaves the acquisition phase
only on success or an explicit shutdown. -/
theorem connect_retry_contract :
    (connectAttempt none
        = (true, [LEvent.statusEv ("Connecting...") true, LEvent.killDaemons,
            LEvent.sleepEv 1500, LEvent.camInit,
            LEvent.setCtrlEv ("imageformat") (CtrlVal.s ("L")),
            LEvent.setCtrlEv ("viewfinder") (CtrlVal.n 1),
            LEvent.statusEv ("Ready") false]))
      ∧ (∀ f : ConnStep, (connectAttempt (some f)).1 = false
          ∧ ∃ rest, (connectAttempt (some f)).2
              = [LEvent.statusEv ("Connecting...") true, LEvent.killDaemons,
                 LEvent.sleepEv 1500] ++ rest)
      ∧ (∀ (rounds : List AcqRound) (q0 : List QJob),
          (∀ r ∈ rounds, r.running = true ∧ r.connFail ≠ none) →
            (acqLoop rounds q0).exit = AcqExit.retrying
              ∧ (acqLoop rounds q0).attempts = rounds.length)
      ∧ (∀ (rd : AcqRound) (rest : List AcqRound) (q0 : List QJob) (f : ConnStep),
          rd.running = true → rd.connFail = some f →
            ∃ pre post, (acqLoop (rd :: rest) q0).trace
              = pre ++ [LEvent.statusEv ("No camera -- waiting...") true,
                  LEvent.sleepEv 2000] ++ post) := by
  refine ⟨rfl, ?_, acqLoop_retries_forever, ?_⟩
  · intro f
    refine ⟨connectAttempt_fail f, ?_⟩
    cases f
    · exact ⟨[], by simp [connectAttempt, connectPre]⟩
    · exact ⟨[LEvent.camInit], by simp [connectAttempt, connectPre]⟩
    · exact ⟨[LEvent.camInit, LEvent.setCtrlEv ("imageformat") (CtrlVal.s ("L"))],
        by simp [connectAttempt, connectPre]⟩
  · intro rd rest q0 f hr hc
    rw [acqLoop_cons_fail rd rest q0 f hr hc]
    exact ⟨(connectAttempt (some f)).2 ++ (drainQueue (q0 ++ rd.arriving)).1,
      (acqLoop rest []).trace, by simp [List.append_assoc]⟩

/-- Claim C4 witness: two failing rounds keep the loop retrying with one
attempt each, and a failing round's trace shows the no-camera status and
backoff sleep. -/
theorem connect_retry_contract_witness :
    (∀ r ∈ [(⟨[], true, some ConnStep.atInit⟩ : AcqRound),
        ⟨[], true, some ConnStep.atViewfinder⟩], r.running = true ∧ r.connFail ≠ none)
      ∧ ((acqLoop [(⟨[], true, some ConnStep.atInit⟩ : AcqRound),
            ⟨[], true, some ConnStep.atViewfinder⟩] []).exit = AcqExit.retrying
        ∧ (acqLoop [(⟨[], true, some ConnStep.atInit⟩ : AcqRound),
            ⟨[], true, some ConnStep.atViewfinder⟩] []).attempts
          = [(⟨[], true, some ConnStep.atInit⟩ : AcqRound),
             ⟨[], true, some ConnStep.atViewfinder⟩].length)
      ∧ (∃ pre post, (acqLoop [(⟨[], true, some ConnStep.atInit⟩ : AcqRound)] []).trace
          = pre ++ [LEvent.statusEv ("No camera -- waiting...") true,
              LEvent.sleepEv 2000] ++ post) :=
  ⟨by decide,
   connect_retry_contract.2.2.1 [⟨[], true, some ConnStep.atInit⟩,
     ⟨[], true, some ConnStep.atViewfinder⟩] [] (by decide),
   connect_retry_contract.2.2.2 ⟨[], true, some ConnStep.atInit⟩ [] []
     ConnStep.atInit rfl rfl⟩

/-- Claim C10 (amended): no job body is ever invoked during the
acquisition phase (there is no live handle there), and every job the
acquisition phase discards — which happens exactly at a *failed* connect
attempt — is signaled once without running; but a job still queued when a
connect attempt *succeeds* is not dropped: it is handed intact to the
connected loop, which then runs it. -/
theorem acquisition_jobs_drop_or_retain :
    (∀ (rounds : List AcqRound) (q0 : List QJob),
        (∀ e ∈ (acqLoop rounds q0).trace, isRunEv e = false)
          ∧ ∀ r ∈ (acqLoop rounds q0).records,
              r.ran = false ∧ r.handle.isSet = true ∧ r.handle.transitions = 1)
      ∧ (∀ (rd : AcqRound) (rest : List AcqRound) (q0 : List QJob),
          rd.running = true → rd.connFail = none →
            (acqLoop (rd :: rest) q0).exit = AcqExit.connected
              ∧ (acqLoop (rd :: rest) q0).pending = q0 ++ rd.arriving
              ∧ (acqLoop (rd :: rest) q0).records = [])
      ∧ (∀ q : List QJob, (∀ j ∈ q, j.outcome = JobOutcome.ok) →
          ∀ (p : PrevOut) (po : PollOut),
            (iterFull ⟨q, p, po⟩).records
              = q.map fun j => ⟨j, true, true, OneShot.new.set⟩) := by
  refine ⟨?_, ?_, ?_⟩
  · intro rounds q0
    refine ⟨acqLoop_no_runs rounds q0, ?_⟩
    intro r hr
    have h := acqLoop_records_signaled rounds q0 r hr
    exact ⟨h.2.2, h.1, h.2.1⟩
  · intro rd rest q0 hr hc
    rw [acqLoop_cons_success rd rest q0 hr hc]
    exact ⟨rfl, rfl, rfl⟩
  · intro q hj p po
    have h := drainJobs_all_ok q hj
    cases hb : (previewStep p).2 with
    | false =>
      rw [iterFull_eq_normal ⟨q, p, po⟩ h.2.1 hb]
      exact h.1
    | true =>
      rw [iterFull_eq_prevBreak ⟨q, p, po⟩ h.2.1 hb]
      dsimp only
      rw [h.2.2, h.1]
      simp [reconnectCleanup, drainQueue]

/-- Claim C10 witness: a job arriving during acquisition whose round
connects successfully is retained and then executed. -/
theorem acquisition_jobs_drop_or_retain_witness :
    ((⟨[⟨1, JobOutcome.ok⟩], true, none⟩ : AcqRound).running = true)
      ∧ ((⟨[⟨1, JobOutcome.ok⟩], true, none⟩ : AcqRound).connFail = none)
      ∧ ((acqLoop [⟨[⟨1, JobOutcome.ok⟩], true, none⟩] []).exit = AcqExit.connected
        ∧ (acqLoop [⟨[⟨1, JobOutcome.ok⟩], true, none⟩] []).pending
            = [] ++ (⟨[⟨1, JobOutcome.ok⟩], true, none⟩ : AcqRound).arriving
        ∧ (acqLoop [⟨[⟨1, JobOutcome.ok⟩], true, none⟩] []).records = [])
      ∧ (∀ j ∈ [(⟨1, JobOutcome.ok⟩ : QJob)], j.outcome = JobOutcome.ok)
      ∧ (iterFull ⟨[⟨1, JobOutcome.ok⟩], PrevOut.ok, PollOut.noEvent⟩).records
          = [(⟨1, JobOutcome.ok⟩ : QJob)].map fun j => ⟨j, true, true, OneShot.new.set⟩ :=
  ⟨rfl, rfl,
   acquisition_jobs_drop_or_retain.2.1 ⟨[⟨1, JobOutcome.ok⟩], true, none⟩ [] [] rfl rfl,
   by decide,
   acquisition_jobs_drop_or_retain.2.2 [⟨1, JobOutcome.ok⟩] (by decide)
     PrevOut.ok PollOut.noEvent⟩

/-- Claim C10 counterexample: the claim says jobs submitted while the
camera is absent are dropped rather than held until reconnection succeeds
— but a job queued during acquisition whose next connect attempt succeeds
survives (no record of a discard, the job still pending at the connected
exit) and is then executed by the first connected-loop iteration. -/
theorem job_survives_successful_reconnect :
    (acqLoop [⟨[⟨1, JobOutcome.ok⟩], true, none⟩] []).exit = AcqExit.connected
      ∧ (acqLoop [⟨[⟨1, JobOutcome.ok⟩], true, none⟩] []).pending = [⟨1, JobOutcome.ok⟩]
      ∧ (acqLoop [⟨[⟨1, JobOutcome.ok⟩], true, none⟩] []).records = []
      ∧ (iterFull ⟨(acqLoop [⟨[⟨1, JobOutcome.ok⟩], true, none⟩] []).pending,
          PrevOut.ok, PollOut.noEvent⟩).records
        = [⟨⟨1, JobOutcome.ok⟩, true, true, OneShot.new.set⟩]
      ∧ LEvent.run ⟨1, JobOutcome.ok⟩
          ∈ (iterFull ⟨(acqLoop [⟨[⟨1, JobOutcome.ok⟩], true, none⟩] []).pending,
              PrevOut.ok, PollOut.noEvent⟩).trace := by
  decide

/-- Claim C5: a capture job whose file-added event arrives before the
deadline writes the remote-release control through Press Half, Press Full,
Release Full, Release Half in exactly that literal order with the debounce
delay after each write (the trace begins with the four `releaseStep`s,
each of which is read-config, write, sleep `debounce`), issues exactly one
file callback (only the first event is consumed), and returns successfully
with the viewfinder-restore write as its final control operation. -/
theorem capture_success_protocol (t0 te : Nat)
    (h : te ≤ t0 + 4 * debounce + 8000) :
    (captureJob (some te) t0).1 = Except.ok ()
      ∧ (∃ rest, (captureJob (some te) t0).2
          = releaseStep ("Press Half") ++ releaseStep ("Press Full")
            ++ releaseStep ("Release Full") ++ releaseStep ("Release Half") ++ rest)
      ∧ ((captureJob (some te) t0).2.filter isFileCb).length = 1
      ∧ (∃ pre, (captureJob (some te) t0).2
          = pre ++ [DevOp.getConfig, DevOp.setCtrl ("viewfinder") (CtrlVal.n 1),
              DevOp.sleep 500]
          ∧ DevOp.fileCb ∈ pre) := by
  have hgot : (captureWaitAux (some te) (t0 + 4 * debounce + 8000)
      (t0 + 4 * debounce) 8000).1 = true :=
    captureWaitAux_finds te (t0 + 4 * debounce + 8000) 8000 (t0 + 4 * debounce)
      (by omega) h (by omega)
  have hjob : captureJob (some te) t0
      = (Except.ok (), releaseSeqOps
          ++ (captureWaitAux (some te) (t0 + 4 * debounce + 8000)
                (t0 + 4 * debounce) 8000).2
          ++ successTail) := by
    unfold captureJob
    rw [hgot]
    simp
  have hwops : ∀ op ∈ (captureWaitAux (some te) (t0 + 4 * debounce + 8000)
      (t0 + 4 * debounce) 8000).2, isFileCb op = false := by
    intro op hop
    rw [captureWaitAux_ops (some te) (t0 + 4 * debounce + 8000) 8000
      (t0 + 4 * debounce) op hop]
    rfl
  refine ⟨by rw [hjob], ?_, ?_, ?_⟩
  · refine ⟨(captureWaitAux (some te) (t0 + 4 * debounce + 8000)
      (t0 + 4 * debounce) 8000).2 ++ successTail, ?_⟩
    rw [hjob]
    simp [releaseSeqOps, List.append_assoc]
  · rw [hjob]
    dsimp only
    rw [List.filter_append, List.filter_append,
      filter_nil_of_all _ _ (by decide : ∀ a ∈ releaseSeqOps, isFileCb a = false),
      filter_nil_of_all _ _ hwops]
    rfl
  · refine ⟨releaseSeqOps
      ++ (captureWaitAux (some te) (t0 + 4 * debounce + 8000)
            (t0 + 4 * debounce) 8000).2
      ++ [DevOp.fileGet, DevOp.saveFile, DevOp.fileCb, DevOp.sleep 800], ?_, by simp⟩
    rw [hjob]
    dsimp only
    simp [successTail, List.append_assoc]

/-- Claim C5 witness: a file-added event 2 seconds after job start. -/
theorem capture_success_protocol_witness :
    2000 ≤ 0 + 4 * debounce + 8000
      ∧ ((captureJob (some 2000) 0).1 = Except.ok ()
        ∧ (∃ rest, (captureJob (some 2000) 0).2
            = releaseStep ("Press Half") ++ releaseStep ("Press Full")
              ++ releaseStep ("Release Full") ++ releaseStep ("Release Half") ++ rest)
        ∧ ((captureJob (some 2000) 0).2.filter isFileCb).length = 1
        ∧ (∃ pre, (captureJob (some 2000) 0).2
            = pre ++ [DevOp.getConfig, DevOp.setCtrl ("viewfinder") (CtrlVal.n 1),
                DevOp.sleep 500]
            ∧ DevOp.fileCb ∈ pre)) :=
  ⟨by decide, capture_success_protocol 0 2000 (by decide)⟩

/-- Claim C6 (amended): the capture deadline is wall-clock measured from
the *end of the release sequence* (the code computes `deadline =
time.time() + 8` only after the four debounced writes), fixed once and
never extended by polls; a capture job that receives no file-added event
raises the timeout error and issues no file callback, and the dispatcher
surfaces that error via the status callback — the completion handle
carries no result, is still signaled — and does not retry the job: the
loop simply continues. -/
theorem capture_timeout_behavior (t0 jid : Nat) (p : PrevOut) (po : PollOut)
    (hp : p ≠ PrevOut.ioErr) :
    (captureJob none t0).1 = Except.error ("Timed out — no image received")
      ∧ ((captureJob none t0).2.filter isFileCb).length = 0
      ∧ (iterFull ⟨[⟨jid, JobOutcome.exc ("Timed out — no image received")⟩], p, po⟩).records
          = [⟨⟨jid, JobOutcome.exc ("Timed out — no image received")⟩, true, false,
              OneShot.new.set⟩]
      ∧ LEvent.statusEv ("warn Timed out — no image received") false
          ∈ (iterFull ⟨[⟨jid, JobOutcome.exc ("Timed out — no image received")⟩],
              p, po⟩).trace
      ∧ (iterFull ⟨[⟨jid, JobOutcome.exc ("Timed out — no image received")⟩],
          p, po⟩).next = NextStep.continueLoop := by
  have hw : (captureWaitAux none (t0 + 4 * debounce + 8000)
      (t0 + 4 * debounce) 8000).1 = false :=
    captureWaitAux_none (t0 + 4 * debounce + 8000) 8000 (t0 + 4 * debounce)
  have hjob : captureJob none t0
      = (Except.error ("Timed out — no image received"),
         releaseSeqOps ++ (captureWaitAux none (t0 + 4 * debounce + 8000)
            (t0 + 4 * debounce) 8000).2) := by
    unfold captureJob
    rw [hw]
    simp
  have hwops : ∀ op ∈ (captureWaitAux none (t0 + 4 * debounce + 8000)
      (t0 + 4 * debounce) 8000).2, isFileCb op = false := by
    intro op hop
    rw [captureWaitAux_ops none (t0 + 4 * debounce + 8000) 8000
      (t0 + 4 * debounce) op hop]
    rfl
  have heq := iterFull_eq_normal
    ⟨[⟨jid, JobOutcome.exc ("Timed out — no image received")⟩], p, po⟩
    rfl (previewStep_no_break p hp)
  refine ⟨by rw [hjob], ?_, ?_, ?_, by rw [heq]⟩
  · rw [hjob]
    dsimp only
    rw [List.filter_append,
      filter_nil_of_all _ _ (by decide : ∀ a ∈ releaseSeqOps, isFileCb a = false),
      filter_nil_of_all _ _ hwops]
    rfl
  · rw [heq]
    rfl
  · rw [heq]
    dsimp only
    refine List.mem_append.2 (Or.inl (List.mem_append.2 (Or.inl ?_)))
    have htr : (drainJobs [⟨jid, JobOutcome.exc ("Timed out — no image received")⟩]).trace
        = [LEvent.run ⟨jid, JobOutcome.exc ("Timed out — no image received")⟩,
           LEvent.statusEv ("warn Timed out — no image received") false,
           LEvent.setDone ⟨jid, JobOutcome.exc ("Timed out — no image received")⟩] := rfl
    rw [htr]
    simp

/-- Claim C6 witness: concrete timed-out capture job processed by a
concrete iteration. -/
theorem capture_timeout_behavior_witness :
    PrevOut.ok ≠ PrevOut.ioErr
      ∧ ((captureJob none 0).1 = Except.error ("Timed out — no image received")
        ∧ ((captureJob none 0).2.filter isFileCb).length = 0
        ∧ (iterFull ⟨[⟨1, JobOutcome.exc ("Timed out — no image received")⟩],
              PrevOut.ok, PollOut.noEvent⟩).records
            = [⟨⟨1, JobOutcome.exc ("Timed out — no image received")⟩, true, false,
                OneShot.new.set⟩]
        ∧ LEvent.statusEv ("warn Timed out — no image received") false
            ∈ (iterFull ⟨[⟨1, JobOutcome.exc ("Timed out — no image received")⟩],
                PrevOut.ok, PollOut.noEvent⟩).trace
        ∧ (iterFull ⟨[⟨1, JobOutcome.exc ("Timed out — no image received")⟩],
            PrevOut.ok, PollOut.noEvent⟩).next = NextStep.continueLoop) :=
  ⟨by decide, capture_timeout_behavior 0 1 PrevOut.ok PollOut.noEvent (by decide)⟩

/-- Claim C6 counterexample: the claim measures the deadline as wall-clock
from *job start*; a file-added event at 8500 ms arrives strictly after
that claimed deadline (job start 0 + 8000 ms), yet the capture job
succeeds, because the code computes its deadline only after the 1000 ms
release sequence. -/
theorem capture_deadline_not_from_job_start :
    (0 : Nat) + 8000 < 8500
      ∧ (captureJob (some 8500) 0).1 = Except.ok () := by
  refine ⟨by decide, ?_⟩
  rfl
